import Mathlib

/-!
Verification development for the `loader_aq.py` document question-answering app.

The program is a single Streamlit script.  We model Python strings as lists of
characters (`Str`), the langchain `Document` as a structure with `page_content`
and `metadata`, and each of the four document-type branches of the script as a
function from the loaded documents, the user question, and the state of the
"show content" button to an observation record (`RunOutput`) of what the script
did: which `(question, text)` pairs were passed to the prompt template, which
prompts were sent to the LLM, which answers and content blocks were rendered,
and whether the script aborted with an `IndexError` from `docs[0]` on an empty
list.  The LLM itself is an oracle parameter `llm : Str → Str`
(`StrOutputParser` applied to the model output).
-/

/-- A Python string, as its sequence of code points. -/
abbrev Str := List Char

/-- A langchain `Document`: a text body plus key-value metadata. -/
structure Document where
  page_content : Str
  metadata : List (Str × Str)
deriving Repr, DecidableEq

/-- First fixed part of the `PromptTemplate` in `loader_aq.py`
(the text before the `question` placeholder). -/
def promptPart1 : Str :=
  ("Answer the user question: ").data

/-- Second fixed part of the `PromptTemplate` (between the `question`
placeholder and the `text` placeholder; the source template has an escaped
newline, a literal newline and a 16-space indent there). -/
def promptPart2 : Str :=
  (".\n\n                Only find the answer in the uploaded text:\n").data

/-- Third fixed part of the `PromptTemplate` (after the `text` placeholder). -/
def promptPart3 : Str :=
  (".\n                Format the answer in a structured way.\n                If the content contains a table, display it properly.").data

/-- The Prompt Composer: `template.format(question=..., text=...)` for the
fixed `PromptTemplate` of `loader_aq.py`.  Substituting the two variables into
the template is concatenation of the fixed parts with the two inputs. -/
def composePrompt (question text : Str) : Str :=
  promptPart1 ++ question ++ promptPart2 ++ text ++ promptPart3

/-- One item rendered by the Presenter on the "show content" path:
either a plain `st.write(doc.page_content)` block, or one CSV row block
(`st.subheader(f"Row {i+1}")`, `st.write(doc.page_content)`,
`st.write("Metadata:", doc.metadata)`). -/
inductive Block where
  | text (content : Str)
  | row (header : Str) (content : Str) (metadata : List (Str × Str))
deriving Repr, DecidableEq

/-- Observable behaviour of one run of a document-type branch of the script:
the `(question, text)` pairs passed to the prompt template, the composed
prompts sent to the LLM (`qa_chain.invoke`), the answers rendered by
`st.write(result)`, the content blocks rendered by the "show content" path,
and whether the run aborted with an `IndexError` from `docs[0]` on an empty
document list (events before the abort are still recorded). -/
structure RunOutput where
  composerCalls : List (Str × Str)
  prompts : List Str
  answers : List Str
  blocks : List Block
  indexError : Bool
deriving Repr, DecidableEq

/-- The "Text Document" branch of `loader_aq.py` after `docs = loader.load()`:
`if user_question and docs:` invoke `qa_chain` on
`docs[0].page_content[:2000]`; then `if st.button("Show Full Text Content"):`
render `docs[0].page_content` (this second `docs[0]` is unguarded). -/
def textBranch (llm : Str → Str) (docs : List Document) (q : Str)
    (showClicked : Bool) : RunOutput :=
  let qa : List (Str × Str) × List Str × List Str :=
    if q ≠ [] ∧ docs ≠ [] then
      let excerpt := (docs.headD ⟨[], []⟩).page_content.take 2000
      ([(q, excerpt)], [composePrompt q excerpt], [llm (composePrompt q excerpt)])
    else ([], [], [])
  if showClicked then
    match docs with
    | [] => ⟨qa.1, qa.2.1, qa.2.2, [], true⟩
    | d :: _ => ⟨qa.1, qa.2.1, qa.2.2, [Block.text d.page_content], false⟩
  else ⟨qa.1, qa.2.1, qa.2.2, [], false⟩

/-- The "WebBase Document" branch of `loader_aq.py` after
`docs = loader.load()`: `if user_question:` (no guard on `docs`) invoke
`qa_chain` on `docs[0].page_content[:2000]`; then
`if st.button("Show Page Content"):` render `docs[0].page_content`. -/
def webBranch (llm : Str → Str) (docs : List Document) (q : Str)
    (showClicked : Bool) : RunOutput :=
  if q ≠ [] then
    match docs with
    | [] => ⟨[], [], [], [], true⟩
    | d :: _ =>
      let excerpt := d.page_content.take 2000
      let p := composePrompt q excerpt
      if showClicked then
        ⟨[(q, excerpt)], [p], [llm p], [Block.text d.page_content], false⟩
      else ⟨[(q, excerpt)], [p], [llm p], [], false⟩
  else
    if showClicked then
      match docs with
      | [] => ⟨[], [], [], [], true⟩
      | d :: _ => ⟨[], [], [], [Block.text d.page_content], false⟩
    else ⟨[], [], [], [], false⟩

/-- The "CSV Document" branch of `loader_aq.py` after
`docs = list(loader.lazy_load())`: `if st.button("Show CSV Content"):` render
one block per row via `enumerate(docs)`; then `if user_question:` (no guard on
`docs`) invoke `qa_chain` on
`"\n".join([d.page_content for d in docs[:20]])`. -/
def csvBranch (llm : Str → Str) (docs : List Document) (q : Str)
    (showClicked : Bool) : RunOutput :=
  let blocks :=
    if showClicked then
      docs.enum.map (fun p =>
        Block.row (("Row ").data ++ (toString (p.1 + 1)).data)
          p.2.page_content p.2.metadata)
    else []
  if q ≠ [] then
    let combined := List.intercalate ("\n").data ((docs.take 20).map Document.page_content)
    let p := composePrompt q combined
    ⟨[(q, combined)], [p], [llm p], blocks, false⟩
  else ⟨[], [], [], blocks, false⟩

/-- The "PDF Document" branch of `loader_aq.py` after `docs = loader.load()`:
`if user_question and docs:` invoke `qa_chain` on
`docs[0].page_content[:2000]`; then `if st.button("Show PDF Content"):` render
`docs[0].page_content` (unguarded).  Its code is line-for-line the same shape
as the Text branch. -/
def pdfBranch (llm : Str → Str) (docs : List Document) (q : Str)
    (showClicked : Bool) : RunOutput :=
  let qa : List (Str × Str) × List Str × List Str :=
    if q ≠ [] ∧ docs ≠ [] then
      let excerpt := (docs.headD ⟨[], []⟩).page_content.take 2000
      ([(q, excerpt)], [composePrompt q excerpt], [llm (composePrompt q excerpt)])
    else ([], [], [])
  if showClicked then
    match docs with
    | [] => ⟨qa.1, qa.2.1, qa.2.2, [], true⟩
    | d :: _ => ⟨qa.1, qa.2.1, qa.2.2, [Block.text d.page_content], false⟩
  else ⟨qa.1, qa.2.1, qa.2.2, [], false⟩

/-- The model configuration used at line 33 of `loader_aq.py`. -/
structure LLMConfig where
  model : Str
  model_provider : Str
deriving Repr, DecidableEq

/-- The arguments the script passes to `init_chat_model`, as a function of the
process environment (a key-value list; `load_dotenv()` populates it).  The
source passes the literal constants
`init_chat_model(model="gemini-2.0-flash", model_provider="google-genai")`,
reading nothing from the environment. -/
def llm_model_config (env : List (Str × Str)) : LLMConfig :=
  ⟨("gemini-2.0-flash").data, ("google-genai").data⟩

/-- A file system state: an association list from path to byte content. -/
def lookupFile : List (Str × List Nat) → Str → Option (List Nat)
  | [], _ => none
  | (p, c) :: fs, path => if p = path then some c else lookupFile fs path

/-- `save_uploaded_file(uploaded_file, suffix)` of `loader_aq.py`:
`tempfile.NamedTemporaryFile(delete=False, suffix=suffix)` picks a fresh name
stem, appends `suffix`, writes `uploaded_file.read()` into it, and the
function returns the path; `delete=False` means the file remains on disk after
the `with` block closes it.  `stem` models the fresh name chosen by
`tempfile`; the function returns the updated file system and the path. -/
def save_uploaded_file (fs : List (Str × List Nat)) (uploadedBytes : List Nat)
    (suffix stem : Str) : List (Str × List Nat) × Str :=
  ((stem ++ suffix, uploadedBytes) :: fs, stem ++ suffix)

/-! ### Theorems about the claims -/

/-- C7: the Prompt Composer is a pure function of `(question, textExcerpt)`
(in this embedding it is a mathematical function, so it is deterministic and
side-effect free by construction), and it produces the single fixed-template
prompt that embeds both inputs verbatim: the prompt is the fixed first
template part, then the question, then the fixed middle part, then the
excerpt, then the fixed last part — in particular both inputs occur in the
prompt as contiguous substrings. -/
theorem C7_composer_pure_and_embeds (q t : Str) :
    composePrompt q t = promptPart1 ++ q ++ promptPart2 ++ t ++ promptPart3 ∧
    (∃ a b, composePrompt q t = a ++ q ++ b) ∧
    (∃ a b, composePrompt q t = a ++ t ++ b) := by
  refine ⟨rfl, ⟨promptPart1, promptPart2 ++ t ++ promptPart3, by simp [composePrompt]⟩,
    ⟨promptPart1 ++ q ++ promptPart2, promptPart3, by simp [composePrompt]⟩⟩

/-- C3: for a text document whose extracted content exceeds 2000 characters
(the `TextLoader` yields one segment holding the full content), the text
passed to the Prompt Composer together with the question is exactly the first
2000 characters of that content: the excerpt has length exactly 2000 and is a
prefix of the content. -/
theorem C3_text_truncation (llm : Str → Str) (content : Str)
    (m : List (Str × Str)) (q : Str) (b : Bool)
    (hq : q ≠ []) (hlen : 2000 < content.length) :
    (textBranch llm [⟨content, m⟩] q b).composerCalls = [(q, content.take 2000)] ∧
    (content.take 2000).length = 2000 ∧
    content.take 2000 ++ content.drop 2000 = content := by
  refine ⟨?_, ?_, List.take_append_drop 2000 content⟩
  · cases b <;> simp [textBranch, hq]
  · rw [List.length_take]
    omega

/-- Witness for C3 at a concrete input: a 2001-character content. -/
theorem C3_text_truncation_witness :
    (textBranch (fun _ => []) [⟨List.replicate 2001 'a', []⟩] ['q'] false).composerCalls
      = [(['q'], (List.replicate 2001 'a').take 2000)] ∧
    ((List.replicate 2001 'a' : Str).take 2000).length = 2000 ∧
    (List.replicate 2001 'a' : Str).take 2000 ++ (List.replicate 2001 'a' : Str).drop 2000
      = List.replicate 2001 'a' :=
  C3_text_truncation (fun _ => []) (List.replicate 2001 'a') [] ['q'] false
    (by decide) (by rw [List.length_replicate]; omega)

/-- C4: for a CSV extracted into more than 20 row segments, the excerpt the
CSV branch passes to generation is exactly the newline-join of the first 20
rows' contents, in row order, and rows after the twentieth do not contribute
(the composer call is unchanged if the document list is cut to its first 20
rows). -/
theorem C4_csv_first20 (llm : Str → Str) (docs : List Document) (q : Str)
    (b : Bool) (hq : q ≠ []) (h20 : 20 < docs.length) :
    (csvBranch llm docs q b).composerCalls =
      [(q, List.intercalate ("\n").data ((docs.take 20).map Document.page_content))] ∧
    (csvBranch llm docs q b).composerCalls =
      (csvBranch llm (docs.take 20) q b).composerCalls := by
  constructor
  · cases b <;> simp [csvBranch, hq]
  · cases b <;> simp [csvBranch, hq, List.take_take]

/-- Witness for C4 at a concrete input: a 21-row CSV. -/
theorem C4_csv_first20_witness :
    (csvBranch (fun _ => []) (List.replicate 21 ⟨['a'], []⟩) ['q'] false).composerCalls =
      [(['q'], List.intercalate ("\n").data
        (((List.replicate 21 (⟨['a'], []⟩ : Document)).take 20).map Document.page_content))] ∧
    (csvBranch (fun _ => []) (List.replicate 21 ⟨['a'], []⟩) ['q'] false).composerCalls =
      (csvBranch (fun _ => []) ((List.replicate 21 (⟨['a'], []⟩ : Document)).take 20) ['q'] false).composerCalls :=
  C4_csv_first20 (fun _ => []) (List.replicate 21 ⟨['a'], []⟩) ['q'] false
    (by decide) (by rw [List.length_replicate]; omega)

/-- C8: for a CSV extracted into exactly 3 row segments with no question
entered, clicking "Show CSV Content" renders exactly 3 row blocks in row
order, each with its row header, its content and its metadata, and the Answer
Generator is never invoked (no composer call, no prompt, no answer). -/
theorem C8_csv_show_three_rows (llm : Str → Str) (d1 d2 d3 : Document) :
    (csvBranch llm [d1, d2, d3] [] true).blocks =
      [Block.row (("Row 1").data) d1.page_content d1.metadata,
       Block.row (("Row 2").data) d2.page_content d2.metadata,
       Block.row (("Row 3").data) d3.page_content d3.metadata] ∧
    (csvBranch llm [d1, d2, d3] [] true).composerCalls = [] ∧
    (csvBranch llm [d1, d2, d3] [] true).prompts = [] ∧
    (csvBranch llm [d1, d2, d3] [] true).answers = [] := by
  refine ⟨?_, by simp [csvBranch], by simp [csvBranch], by simp [csvBranch]⟩
  simp only [csvBranch, List.enum, List.enumFrom, List.map, if_true]
  norm_num
  refine ⟨by decide, by decide, by decide⟩

/-- C9: in the WebBase branch, when a question is present `docs[0]` is indexed
with no guard on the document list being non-empty: with zero segments the
run aborts with an `IndexError` (before any call to the Answer Generator),
and with at least one segment the question-answering step completes without
the index error. -/
theorem C9_web_unguarded_index (llm : Str → Str) (q : Str) (b : Bool)
    (docs : List Document) (hq : q ≠ []) (hd : docs ≠ []) :
    (webBranch llm [] q b).indexError = true ∧
    (webBranch llm [] q b).prompts = [] ∧
    (webBranch llm docs q b).indexError = false := by
  refine ⟨by simp [webBranch, hq], by simp [webBranch, hq], ?_⟩
  match docs with
  | d :: ds => cases b <;> simp [webBranch, hq]

/-- Witness for C9 at a concrete input: question `"q"`, a one-segment
document list for the guarded side. -/
theorem C9_web_unguarded_index_witness :
    (webBranch (fun _ => []) [] ['q'] false).indexError = true ∧
    (webBranch (fun _ => []) [] ['q'] false).prompts = [] ∧
    (webBranch (fun _ => []) [⟨['x'], []⟩] ['q'] false).indexError = false :=
  C9_web_unguarded_index (fun _ => []) ['q'] false [⟨['x'], []⟩]
    (by decide) (by decide)

/-- C1 counterexample: in the CSV branch, with zero extracted segments and
the question `"q"` present, the Answer Generator IS invoked — the branch has
no guard on `docs`, so `qa_chain.invoke` is called with the empty excerpt
`"\n".join([]) = ""` — refuting "the Answer Generator is never invoked" for
every document type. -/
theorem C1_counterexample :
    (csvBranch (fun _ => ['a']) [] ['q'] false).prompts = [composePrompt ['q'] []] ∧
    (csvBranch (fun _ => ['a']) [] ['q'] false).prompts ≠ [] := by
  refine ⟨by simp [csvBranch, List.intercalate], by simp [csvBranch]⟩

/-- C1 amended: with zero extracted segments and a question present, the Text
and PDF branches never invoke the Answer Generator (their question branch is
guarded by `and docs`); the WebBase branch never invokes it either but aborts
with an `IndexError` instead of skipping; the CSV branch DOES invoke it, once,
with the empty excerpt. -/
theorem C1_amended_zero_segments (llm : Str → Str) (q : Str) (b : Bool)
    (hq : q ≠ []) :
    (textBranch llm [] q b).composerCalls = [] ∧
    (textBranch llm [] q b).prompts = [] ∧
    (pdfBranch llm [] q b).composerCalls = [] ∧
    (pdfBranch llm [] q b).prompts = [] ∧
    (webBranch llm [] q b).prompts = [] ∧
    (webBranch llm [] q b).indexError = true ∧
    (csvBranch llm [] q b).prompts = [composePrompt q []] := by
  cases b <;> simp [textBranch, pdfBranch, webBranch, csvBranch, hq, List.intercalate]

/-- Witness for the amended C1 at a concrete input: question `"q"`. -/
theorem C1_amended_zero_segments_witness :
    (textBranch (fun _ => []) [] ['q'] false).composerCalls = [] ∧
    (textBranch (fun _ => []) [] ['q'] false).prompts = [] ∧
    (pdfBranch (fun _ => []) [] ['q'] false).composerCalls = [] ∧
    (pdfBranch (fun _ => []) [] ['q'] false).prompts = [] ∧
    (webBranch (fun _ => []) [] ['q'] false).prompts = [] ∧
    (webBranch (fun _ => []) [] ['q'] false).indexError = true ∧
    (csvBranch (fun _ => []) [] ['q'] false).prompts = [composePrompt ['q'] []] :=
  C1_amended_zero_segments (fun _ => []) ['q'] false (by decide)

/-- C2 counterexample: for a two-page PDF with pages `"A"` and `"B"` and
question `"q"`, the excerpt passed to the Prompt Composer is `"A"` — only the
first segment (truncated to 2000 characters) — and not the concatenation of
the first 20 segments, which would be `"A\nB"` (and in any case would contain
`"B"`); this refutes the claim for multi-page PDFs. -/
theorem C2_counterexample :
    (pdfBranch (fun _ => []) [⟨['A'], []⟩, ⟨['B'], []⟩] ['q'] false).composerCalls =
      [(['q'], ['A'])] ∧
    List.intercalate ("\n").data
      ((([⟨['A'], []⟩, ⟨['B'], []⟩] : List Document).take 20).map Document.page_content) =
      ['A', '\n', 'B'] ∧
    (['A'] : Str) ≠ ['A', '\n', 'B'] := by
  refine ⟨by simp [pdfBranch], by decide, by decide⟩

/-- C2 amended: for a multi-segment source with a question present, the CSV
branch passes the newline-concatenation of the first 20 segments to the
Prompt Composer, but the PDF branch passes only the FIRST segment's content
truncated to its first 2000 characters. -/
theorem C2_amended_multisegment_excerpt (llm : Str → Str) (docs : List Document)
    (q : Str) (b : Bool) (hq : q ≠ []) (hd : 1 < docs.length) :
    (csvBranch llm docs q b).composerCalls =
      [(q, List.intercalate ("\n").data ((docs.take 20).map Document.page_content))] ∧
    (pdfBranch llm docs q b).composerCalls =
      [(q, (docs.headD ⟨[], []⟩).page_content.take 2000)] := by
  match docs with
  | d :: ds =>
    constructor
    · cases b <;> simp [csvBranch, hq]
    · cases b <;> simp [pdfBranch, hq]

/-- Witness for the amended C2 at a concrete input: a two-segment source. -/
theorem C2_amended_multisegment_excerpt_witness :
    (csvBranch (fun _ => []) [⟨['A'], []⟩, ⟨['B'], []⟩] ['q'] false).composerCalls =
      [(['q'], List.intercalate ("\n").data
        ((([⟨['A'], []⟩, ⟨['B'], []⟩] : List Document).take 20).map Document.page_content))] ∧
    (pdfBranch (fun _ => []) [⟨['A'], []⟩, ⟨['B'], []⟩] ['q'] false).composerCalls =
      [(['q'], (([⟨['A'], []⟩, ⟨['B'], []⟩] : List Document).headD ⟨[], []⟩).page_content.take 2000)] :=
  C2_amended_multisegment_excerpt (fun _ => []) [⟨['A'], []⟩, ⟨['B'], []⟩] ['q'] false
    (by decide) (by decide)

/-- C5 counterexample: with `MODEL_NAME` and `MODEL_PROVIDER` both set in the
environment to other values, the script still initializes the LLM with the
literal constants `"gemini-2.0-flash"` and `"google-genai"` from line 33, not
with the configured values — refuting configurability. -/
theorem C5_counterexample :
    (llm_model_config
      [(("MODEL_NAME").data, ("other-model").data),
       (("MODEL_PROVIDER").data, ("other-provider").data)]).model =
      ("gemini-2.0-flash").data ∧
    (llm_model_config
      [(("MODEL_NAME").data, ("other-model").data),
       (("MODEL_PROVIDER").data, ("other-provider").data)]).model ≠
      ("other-model").data ∧
    (llm_model_config
      [(("MODEL_NAME").data, ("other-model").data),
       (("MODEL_PROVIDER").data, ("other-provider").data)]).model_provider ≠
      ("other-provider").data := by
  refine ⟨rfl, by decide, by decide⟩

/-- C5 amended: the model name and model provider passed to `init_chat_model`
are the fixed constants `"gemini-2.0-flash"` and `"google-genai"` for every
process environment; `MODEL_NAME` and `MODEL_PROVIDER` are never consulted
(only provider API credentials are taken from the environment, by the
provider library). -/
theorem C5_amended_fixed_model (env : List (Str × Str)) :
    llm_model_config env =
      ⟨("gemini-2.0-flash").data, ("google-genai").data⟩ := rfl

/-- C6 counterexample: for a two-page PDF with pages `"A"` and `"B"`, an
empty question and the show-content button clicked, the Presenter renders
only `"A"` — the first page — and page `"B"` appears in no rendered block, so
the rendered text does not equal the full extracted text. -/
theorem C6_counterexample :
    (pdfBranch (fun _ => []) [⟨['A'], []⟩, ⟨['B'], []⟩] [] true).blocks =
      [Block.text ['A']] ∧
    Block.text ['B'] ∉ (pdfBranch (fun _ => []) [⟨['A'], []⟩, ⟨['B'], []⟩] [] true).blocks := by
  refine ⟨by simp [pdfBranch], by decide⟩

/-- C6 amended: on the "show content" path with an empty question, the Text
branch renders its single extracted segment unchanged, the CSV branch renders
every row in order with its content and metadata, but the PDF and WebBase
branches render only the FIRST extracted segment's content; in all four
branches the Answer Generator is never invoked. -/
theorem C6_amended_show_content (llm : Str → Str) (c : Str)
    (m : List (Str × Str)) (d : Document) (ds docs : List Document) :
    (textBranch llm [⟨c, m⟩] [] true).blocks = [Block.text c] ∧
    (csvBranch llm docs [] true).blocks =
      docs.enum.map (fun p =>
        Block.row (("Row ").data ++ (toString (p.1 + 1)).data)
          p.2.page_content p.2.metadata) ∧
    (pdfBranch llm (d :: ds) [] true).blocks = [Block.text d.page_content] ∧
    (webBranch llm (d :: ds) [] true).blocks = [Block.text d.page_content] ∧
    (textBranch llm [⟨c, m⟩] [] true).prompts = [] ∧
    (csvBranch llm docs [] true).prompts = [] ∧
    (pdfBranch llm (d :: ds) [] true).prompts = [] ∧
    (webBranch llm (d :: ds) [] true).prompts = [] := by
  refine ⟨by simp [textBranch], by simp [csvBranch], by simp [pdfBranch],
    by simp [webBranch], by simp [textBranch], by simp [csvBranch],
    by simp [pdfBranch], by simp [webBranch]⟩

/-- C10: `save_uploaded_file` writes the complete uploaded byte content to a
fresh temporary file whose path is the fresh stem chosen by `tempfile` with
the given suffix appended (so the path ends with the suffix); it returns that
path; the file did not exist before the call, and because of `delete=False`
the file still exists, holding exactly the uploaded bytes, after the function
returns. -/
theorem C10_save_uploaded_file (fs : List (Str × List Nat)) (bytes : List Nat)
    (suffix stem : Str) (hfresh : lookupFile fs (stem ++ suffix) = none) :
    (save_uploaded_file fs bytes suffix stem).2 = stem ++ suffix ∧
    (∃ pre, (save_uploaded_file fs bytes suffix stem).2 = pre ++ suffix) ∧
    lookupFile (save_uploaded_file fs bytes suffix stem).1
      (save_uploaded_file fs bytes suffix stem).2 = some bytes ∧
    lookupFile fs (save_uploaded_file fs bytes suffix stem).2 = none := by
  refine ⟨rfl, ⟨stem, rfl⟩, ?_, hfresh⟩
  simp [save_uploaded_file, lookupFile]

/-- Witness for C10 at a concrete input: empty file system, bytes
`[1, 2, 3]`, suffix `".txt"`, stem `"tmpabc"`. -/
theorem C10_save_uploaded_file_witness :
    (save_uploaded_file [] [1, 2, 3] (".txt").data ("tmpabc").data).2 =
      ("tmpabc").data ++ (".txt").data ∧
    (∃ pre, (save_uploaded_file [] [1, 2, 3] (".txt").data ("tmpabc").data).2 =
      pre ++ (".txt").data) ∧
    lookupFile (save_uploaded_file [] [1, 2, 3] (".txt").data ("tmpabc").data).1
      (save_uploaded_file [] [1, 2, 3] (".txt").data ("tmpabc").data).2 = some [1, 2, 3] ∧
    lookupFile [] (save_uploaded_file [] [1, 2, 3] (".txt").data ("tmpabc").data).2 = none :=
  C10_save_uploaded_file [] [1, 2, 3] (".txt").data ("tmpabc").data rfl
